import Mathlib

/-!
Verification of the dependency-provisioning module `fast_clean/depends.py`
of the fast-clean repository.

The module is embedded shallowly: the module-level singleton state held by
`RedisManager` and `CacheManager` is passed explicitly as a `GlobalState`
value, Python exceptions (including failing `assert` statements) are
modelled as `Except.error` results, and collaborator classes whose bodies
live outside this module (the settings schemas, the storage factory, the
Redis and cache managers, the broker factory, the cryptography factory)
are modelled from the specification, as flagged in their doc comments.
-/

namespace FastClean

/-- Modelled from the spec: the S3 configuration sub-block of the storage
settings.  Its concrete field names are outside the embedded module; the
spec only requires a record of S3 connection parameters each of which may
be absent, so two representative parameters are used. -/
structure CoreS3SettingsSchema where
  endpoint : Option String
  bucket : Option String
deriving DecidableEq

/-- Modelled from the spec: `pydantic` model_dump turns the sub-block into a
plain record of its fields; the field contents are unchanged. -/
def CoreS3SettingsSchema.model_dump (s : CoreS3SettingsSchema) : CoreS3SettingsSchema := s

/-- Modelled from the spec: the independently validated S3 parameter record
handed to the storage factory; every required parameter is present. -/
structure S3StorageParamsSchema where
  endpoint : String
  bucket : String
deriving DecidableEq

/-- Modelled from the spec: validation of the parameter record fails with a
validation error when a required S3 parameter is absent, and otherwise
produces the validated record. -/
def S3StorageParamsSchema.model_validate (d : CoreS3SettingsSchema) :
    Except String S3StorageParamsSchema :=
  match d.endpoint, d.bucket with
  | some e, some b => Except.ok ⟨e, b⟩
  | _, _ => Except.error ("validation error: missing required S3 parameters")

/-- The local-storage parameter record (constructed in depends.py with a
single `path` field). -/
structure LocalStorageParamsSchema where
  path : String
deriving DecidableEq

/-- The storage backend discriminator (members used by depends.py). -/
inductive StorageTypeEnum
  | S3
  | LOCAL
deriving DecidableEq

/-- A parameter record for the storage factory: either the S3 record or the
local record. -/
inductive StorageParamsSchema
  | s3 (p : S3StorageParamsSchema)
  | localFs (p : LocalStorageParamsSchema)
deriving DecidableEq

/-- The storage backend instance produced by the factory. -/
inductive StorageRepositoryProtocol
  | s3Storage (p : S3StorageParamsSchema)
  | localStorage (p : LocalStorageParamsSchema)
deriving DecidableEq

/-- Modelled from the spec: the storage factory `make(discriminator, params)`
returns the backend instance for the discriminator; a discriminator given
parameters of the wrong shape is an unsupported combination and fails with
a distinct "backend not supported" error, never falling through to a
default backend. -/
def StorageRepositoryFactoryImpl.make :
    StorageTypeEnum → StorageParamsSchema → Except String StorageRepositoryProtocol
  | StorageTypeEnum.S3, StorageParamsSchema.s3 p =>
      Except.ok (StorageRepositoryProtocol.s3Storage p)
  | StorageTypeEnum.LOCAL, StorageParamsSchema.localFs p =>
      Except.ok (StorageRepositoryProtocol.localStorage p)
  | _, _ => Except.error ("backend not supported")

/-- The storage section of the configuration, as read by
`get_storage_repository`: a provider discriminator string, an optional S3
sub-block and an optional local directory. -/
structure CoreStorageSettingsSchema where
  provider : String
  s3 : Option CoreS3SettingsSchema
  dir : Option String
deriving DecidableEq

/-- The core settings fields read by the embedded module: the optional Redis
DSN and the secret key. -/
structure CoreSettingsSchema where
  redis_dsn : Option String
  secret_key : String
deriving DecidableEq

/-- Modelled from the spec: the cache configuration section; its shape is out
of scope, so it is represented by its provider discriminator. -/
structure CoreCacheSettingsSchema where
  provider : String
deriving DecidableEq

/-- Modelled from the spec: the Kafka (broker) configuration section; its
shape is out of scope, so it is represented by its bootstrap servers. -/
structure CoreKafkaSettingsSchema where
  bootstrap_servers : String
deriving DecidableEq

/-- Modelled from the spec: the configuration source, `get(schemaType)`
returning the validated typed section; represented as a record of the four
sections depends.py fetches. -/
structure SettingsRepositoryProtocol where
  core : CoreSettingsSchema
  cache : CoreCacheSettingsSchema
  kafka : CoreKafkaSettingsSchema
  storage : CoreStorageSettingsSchema
deriving DecidableEq

/-- The shared Redis transport client published by `RedisManager`. -/
structure RedisClient where
  dsn : String
deriving DecidableEq

/-- The cache repository published by `CacheManager`: modelled from the spec
as the shared client constructed from the cache settings and the optional
Redis client that `CacheManager.init` receives. -/
structure CacheRepositoryProtocol where
  cache_settings : CoreCacheSettingsSchema
  redis : Option RedisClient
deriving DecidableEq

/-- The module-level singleton state of depends.py collaborators:
`RedisManager.redis` and `CacheManager.cache_repository`. -/
structure GlobalState where
  redis : Option RedisClient
  cache_repository : Option CacheRepositoryProtocol
deriving DecidableEq

/-- Modelled from the spec: `RedisManager.init` is idempotent — when a client
is already published it is a no-op, otherwise it constructs the shared
client from the DSN and publishes it. -/
def RedisManager.init (dsn : String) (st : GlobalState) : GlobalState :=
  match st.redis with
  | some _ => st
  | none => { st with redis := some ⟨dsn⟩ }

/-- Modelled from the spec: `CacheManager.init` constructs the shared cache
repository from the cache settings and the optional Redis client and
publishes it. -/
def CacheManager.init (cs : CoreCacheSettingsSchema) (r : Option RedisClient) :
    Option CacheRepositoryProtocol :=
  some ⟨cs, r⟩

/-- Embedding of `CoreProvider.get_storage_repository` (depends.py lines
138-157).  The Python if / elif / raise chain becomes a three-way match:
provider "s3" with the s3 sub-block present validates the dumped sub-block
and hands it to the factory with the S3 discriminator; provider "local"
with the directory present hands the local parameter record to the factory
with the LOCAL discriminator; every other combination raises
`NotImplementedError("Storage ... not allowed")`.  The module-level
singleton state is threaded through unchanged, which makes the frame of
the function explicit: its body never touches `RedisManager` or
`CacheManager`. -/
def get_storage_repository (settings_repository : SettingsRepositoryProtocol)
    (st : GlobalState) : Except String StorageRepositoryProtocol × GlobalState :=
  let storage_settings := settings_repository.storage
  (match storage_settings.provider, storage_settings.s3, storage_settings.dir with
   | "s3", some s3, _ =>
       (S3StorageParamsSchema.model_validate s3.model_dump).bind
         (fun p => StorageRepositoryFactoryImpl.make StorageTypeEnum.S3 (StorageParamsSchema.s3 p))
   | "local", _, some d =>
       StorageRepositoryFactoryImpl.make StorageTypeEnum.LOCAL
         (StorageParamsSchema.localFs ⟨d⟩)
   | _, _, _ =>
       Except.error ("Storage " ++ storage_settings.provider ++ " not allowed"),
   st)

/-- Embedding of `CoreProvider.get_cache_repository` (depends.py lines
122-136).  The body of the external call
`CacheManager.init(cache_settings, RedisManager.redis)` lives outside the
embedded module, so it is taken as the argument `cache_manager_init`,
giving the value it publishes into `CacheManager.cache_repository`.  The
two returned Booleans record, in order, whether `RedisManager.init` and
whether `CacheManager.init` were called. -/
def get_cache_repository
    (cache_manager_init :
      CoreCacheSettingsSchema → Option RedisClient → Option CacheRepositoryProtocol)
    (settings_repository : SettingsRepositoryProtocol) (st : GlobalState) :
    Except String CacheRepositoryProtocol × GlobalState × Bool × Bool :=
  let settings := settings_repository.core
  let (st1, redisInitCalled) :=
    match settings.redis_dsn with
    | some dsn => (RedisManager.init dsn st, true)
    | none => (st, false)
  let cache_settings := settings_repository.cache
  let (st2, cacheInitCalled) :=
    if st1.cache_repository = none then
      ({ st1 with cache_repository := cache_manager_init cache_settings st1.redis }, true)
    else (st1, false)
  match st2.cache_repository with
  | some r => (Except.ok r, st2, redisInitCalled, cacheInitCalled)
  | none => (Except.error ("Cache is not initialized"), st2, redisInitCalled, cacheInitCalled)

/-- The distributed lock service, built on a Redis client handed to it. -/
structure RedisLockService where
  redis : RedisClient
deriving DecidableEq

/-- Embedding of `CoreProvider.get_lock_service` (depends.py lines 201-210).
The two Python `assert` statements are modelled as `Except.error` results
carrying an AssertionError message. -/
def get_lock_service (settings : CoreSettingsSchema) (st : GlobalState) :
    Except String RedisLockService × GlobalState :=
  match settings.redis_dsn with
  | none => (Except.error ("AssertionError: settings.redis_dsn is None"), st)
  | some dsn =>
    let st1 := RedisManager.init dsn st
    match st1.redis with
    | none => (Except.error ("AssertionError: RedisManager.redis is None"), st1)
    | some r => (Except.ok ⟨r⟩, st1)

/-- The cryptographic algorithm discriminator; the only member named by the
embedded module and the spec. -/
inductive CryptographicAlgorithmEnum
  | AES_GCM
deriving DecidableEq

/-- The cryptography service factory, keyed by the secret key supplied once
at factory-creation time. -/
structure CryptographyServiceFactory where
  secret_key : String
deriving DecidableEq

/-- Modelled from the spec: the cryptography service produced by the factory,
an AEAD cipher for the requested algorithm keyed by the factory secret
key. -/
structure CryptographyServiceProtocol where
  algorithm : CryptographicAlgorithmEnum
  secret_key : String
deriving DecidableEq

/-- Modelled from the spec: `CryptographyServiceFactory.make` selects the
algorithm backend, keyed by the secret key held by the factory. -/
def CryptographyServiceFactory.make (f : CryptographyServiceFactory)
    (algorithm : CryptographicAlgorithmEnum) : CryptographyServiceProtocol :=
  ⟨algorithm, f.secret_key⟩

/-- Embedding of `CoreProvider.get_cryptography_service_factory` (depends.py
lines 183-189): the factory is built from the configured secret key. -/
def get_cryptography_service_factory (settings : CoreSettingsSchema) :
    CryptographyServiceFactory :=
  ⟨settings.secret_key⟩

/-- Embedding of `CoreProvider.get_cryptography_service` (depends.py lines
191-199): the service is requested from the factory with the literal
algorithm `CryptographicAlgorithmEnum.AES_GCM`. -/
def get_cryptography_service (cryptography_service_factory : CryptographyServiceFactory) :
    CryptographyServiceProtocol :=
  cryptography_service_factory.make CryptographicAlgorithmEnum.AES_GCM

/-- The broker client; modelled from the spec, which keeps the wire protocol
out of scope, as the record of the configuration it was built from. -/
structure KafkaBroker where
  kafka_settings : CoreKafkaSettingsSchema
deriving DecidableEq

/-- Modelled from the spec: the broker client factory,
`makeStatic(brokerConfig) -> BrokerClient`. -/
def BrokerFactory.make_static (kafka_settings : CoreKafkaSettingsSchema) : KafkaBroker :=
  ⟨kafka_settings⟩

/-- Embedding of the body of `CoreProvider.get_broker_repository` (depends.py
lines 114-120): fetch the Kafka settings from the settings repository and
yield the broker built by the static factory function. -/
def get_broker_repository (settings_repository : SettingsRepositoryProtocol) : KafkaBroker :=
  BrokerFactory.make_static settings_repository.kafka

/-- The dishka scope tags used by the embedded module. -/
inductive Scope
  | APP
  | REQUEST
deriving DecidableEq

/-- The capabilities (provided interfaces) named by the CoreProvider class
body, together with the broker capability of the undecorated
`get_broker_repository` method. -/
inductive Capability
  | settingsRepositoryFactory
  | storageRepositoryFactory
  | settingsRepository
  | settings
  | brokerRepository
  | cacheRepository
  | storageRepository
  | asyncSession
  | sessionManager
  | seedService
  | transactionService
  | cryptographyServiceFactory
  | cryptographyService
  | lockService
deriving DecidableEq

/-- The class attribute `scope = Scope.REQUEST` of CoreProvider: the scope
used by every provide registration that does not name one. -/
def CoreProvider.default_scope : Scope := Scope.REQUEST

/-- The provide registrations of the CoreProvider class body, in source
order, each with its scope tag (the explicit `scope=Scope.APP` argument, or
the class default when the registration names no scope).
`get_broker_repository` carries no provide decorator in depends.py and
therefore does not appear. -/
def CoreProvider.registrations : List (Capability × Scope) :=
  [ (Capability.settingsRepositoryFactory, Scope.APP),
    (Capability.storageRepositoryFactory, Scope.APP),
    (Capability.settingsRepository, Scope.APP),
    (Capability.settings, Scope.APP),
    (Capability.cacheRepository, Scope.APP),
    (Capability.storageRepository, Scope.APP),
    (Capability.asyncSession, CoreProvider.default_scope),
    (Capability.sessionManager, CoreProvider.default_scope),
    (Capability.seedService, CoreProvider.default_scope),
    (Capability.transactionService, CoreProvider.default_scope),
    (Capability.cryptographyServiceFactory, Scope.APP),
    (Capability.cryptographyService, Scope.APP),
    (Capability.lockService, Scope.APP) ]

/-- The scope at which a capability is registered by CoreProvider, or `none`
when no registration provides it. -/
def CoreProvider.scope_of (c : Capability) : Option Scope :=
  (CoreProvider.registrations.find? (fun e => e.1 == c)).map Prod.snd

/-- The pagination request record built by `get_pagination`. -/
structure PaginationRequestSchema where
  page : Int
  page_size : Int
deriving DecidableEq

/-- Python `x or d` for `x : int | None`: `None` and `0` are falsy and give
the default. -/
def int_or_default : Option Int → Int → Int
  | none, d => d
  | some n, d => if n = 0 then d else n

/-- Embedding of `get_pagination` (depends.py lines 59-63):
`PaginationRequestSchema(page=page or 1, page_size=page_size or 10)`. -/
def get_pagination (page : Option Int) (page_size : Option Int) : PaginationRequestSchema :=
  ⟨int_or_default page 1, int_or_default page_size 10⟩

/-- Embedding of `stringcase.snakecase` (the external library function used
by `get_sorting`), on the character list of the string: every hyphen, dot
or (ASCII) whitespace character becomes an underscore, the first character
is lowercased, and every later upper-case ASCII letter becomes an
underscore followed by its lower-case form. -/
def snakecase_chars (l : List Char) : List Char :=
  let t := l.map (fun c =>
    if c = '-' ∨ c = '.' ∨ c = ' ' ∨ c = '\t' ∨ c = '\n' ∨ c = '\r' ∨ c = '\x0b' ∨ c = '\x0c'
    then '_' else c)
  match t with
  | [] => []
  | c :: rest =>
    c.toLower :: rest.foldr (fun c acc =>
      if c.isUpper then '_' :: c.toLower :: acc else c :: acc) []

/-- String-level wrapper of `snakecase_chars`. -/
def snakecase (s : String) : String := ⟨snakecase_chars s.data⟩

/-- Embedding of Python `str.split` with the one-character separator on a
character list: a string with no separator yields one field, and each
separator starts a new (possibly empty) field. -/
def split_commas : List Char → List (List Char)
  | [] => [[]]
  | c :: rest =>
    if c = ',' then [] :: split_commas rest
    else
      match split_commas rest with
      | [] => [[c]]
      | g :: gs => (c :: g) :: gs

/-- The per-field expression of `get_sorting`:
`s[0] + snakecase(s[1:]) if s[0] == '-' else snakecase(s)`.  Evaluating
`s[0]` on an empty field raises IndexError, modelled as `none`. -/
def sorting_field (f : List Char) : Option String :=
  match f with
  | [] => none
  | c :: rest =>
    some (if c = '-' then ⟨'-' :: snakecase_chars rest⟩ else ⟨snakecase_chars (c :: rest)⟩)

/-- The list comprehension of `get_sorting`, evaluated left to right; the
first IndexError aborts the whole call. -/
def sorting_fields : List (List Char) → Option (List String)
  | [] => some []
  | f :: fs =>
    match sorting_field f with
    | none => none
    | some s =>
      match sorting_fields fs with
      | none => none
      | some ss => some (s :: ss)

/-- Embedding of `get_sorting` (depends.py lines 66-72): a falsy argument
(absent or empty string) gives the empty list, otherwise the string is
split on commas and each field converted; an exception while converting is
the `none` result. -/
def get_sorting (sorting : Option String) : Option (List String) :=
  match sorting with
  | none => some []
  | some s =>
    if s.data = [] then some []
    else sorting_fields (split_commas s.data)

/-- The per-field conversion of the sorting string as the spec reading of
`get_sorting` describes it (written from that description, for comparison
with the embedded `sorting_field`): convert the field to snake_case,
keeping a leading hyphen when the field starts with one. -/
def sorting_field_claimed (f : List Char) : String :=
  match f with
  | [] => ⟨snakecase_chars []⟩
  | c :: rest =>
    if c = '-' then ⟨'-' :: snakecase_chars rest⟩ else ⟨snakecase_chars (c :: rest)⟩

/-- The behaviour of `get_sorting` as the claimed reading describes it: split
on commas and convert every field, with no failure case. -/
def get_sorting_claimed (sorting : Option String) : List String :=
  match sorting with
  | none => []
  | some s =>
    if s.data = [] then []
    else (split_commas s.data).map sorting_field_claimed

/-- A cache-manager init behaviour that never publishes a repository; used to
exercise the failure branch of `get_cache_repository`. -/
def cache_init_none :
    CoreCacheSettingsSchema → Option RedisClient → Option CacheRepositoryProtocol :=
  fun _ _ => none

/-- Sample S3 sub-block with every required parameter present. -/
def sample_s3_block : CoreS3SettingsSchema := ⟨some ("s3.example"), some ("bucket")⟩

/-- Sample core settings with a Redis DSN configured. -/
def sample_core_settings : CoreSettingsSchema := ⟨some ("redis://localhost"), "secret"⟩

/-- Sample cache settings section. -/
def sample_cache_settings : CoreCacheSettingsSchema := ⟨"redis"⟩

/-- Sample Kafka settings section. -/
def sample_kafka_settings : CoreKafkaSettingsSchema := ⟨"kafka:9092"⟩

/-- Sample storage section: provider s3 with only the s3 sub-block present. -/
def sample_storage_s3 : CoreStorageSettingsSchema := ⟨"s3", some sample_s3_block, none⟩

/-- Sample storage section with both mutually exclusive sub-blocks present. -/
def sample_storage_both : CoreStorageSettingsSchema :=
  ⟨"s3", some sample_s3_block, some ("/data")⟩

/-- Sample settings repository around a given storage section. -/
def sample_settings_repository (storage : CoreStorageSettingsSchema) :
    SettingsRepositoryProtocol :=
  ⟨sample_core_settings, sample_cache_settings, sample_kafka_settings, storage⟩

/-- The module state before any manager initialization. -/
def empty_state : GlobalState := ⟨none, none⟩

/-- A sample already-published cache repository. -/
def sample_cache_repo : CacheRepositoryProtocol := ⟨sample_cache_settings, none⟩

/-- A module state in which a cache repository is already published. -/
def cache_published_state : GlobalState := ⟨none, some sample_cache_repo⟩

/-- Helper: the embedded per-field conversion agrees with the described
conversion on every non-empty field. -/
theorem sorting_field_cons (c : Char) (rest : List Char) :
    sorting_field (c :: rest) = some (sorting_field_claimed (c :: rest)) := rfl

/-- Helper: when every field is non-empty, the field traversal succeeds and
is the plain map of the described conversion. -/
theorem sorting_fields_all_nonempty (L : List (List Char)) (h : ∀ f ∈ L, f ≠ []) :
    sorting_fields L = some (L.map sorting_field_claimed) := by
  induction L with
  | nil => rfl
  | cons f fs ih =>
    cases f with
    | nil => exact absurd rfl (h [] (List.mem_cons_self [] fs))
    | cons c rest =>
      have ht := ih (fun g hg => h g (List.mem_cons_of_mem _ hg))
      simp [sorting_fields, sorting_field_cons, ht]

/-- Helper: an empty field anywhere makes the field traversal fail. -/
theorem sorting_fields_has_empty (L : List (List Char)) (h : ∃ f ∈ L, f = []) :
    sorting_fields L = none := by
  induction L with
  | nil => simp at h
  | cons f fs ih =>
    rcases h with ⟨g, hg, rfl⟩
    rcases List.mem_cons.mp hg with h1 | h2
    · subst h1
      rfl
    · have ht := ih ⟨[], h2, rfl⟩
      cases f with
      | nil => rfl
      | cons c rest => simp [sorting_fields, sorting_field_cons, ht]

/-- Helper: splitting never yields an empty list of fields. -/
theorem split_commas_ne_nil (l : List Char) : split_commas l ≠ [] := by
  cases l with
  | nil => simp [split_commas]
  | cons c rest =>
    simp only [split_commas]
    split
    · simp
    · split <;> simp

/-- Helper: the field traversal of a non-empty field list never produces the
empty result list. -/
theorem sorting_fields_cons_ne_some_nil (f : List Char) (fs : List (List Char)) :
    sorting_fields (f :: fs) ≠ some [] := by
  cases h1 : sorting_field f <;> cases h2 : sorting_fields fs <;>
    simp [sorting_fields, h1, h2]

/-- C1: for every storage settings record, get_storage_repository returns the
factory instance for the S3 discriminator applied to the validated S3
parameters when the provider is s3 and the s3 sub-block is present,
returns the factory instance for the LOCAL discriminator applied to the
configured directory path when the provider is local and the directory is
present, and in every other case raises the distinct error
`Storage ... not allowed`; it never falls through to a default backend. -/
theorem get_storage_repository_cases (sr : SettingsRepositoryProtocol) (st : GlobalState) :
    (∀ s3, sr.storage.provider = "s3" → sr.storage.s3 = some s3 →
      get_storage_repository sr st =
        ((S3StorageParamsSchema.model_validate s3.model_dump).bind
          (fun p => StorageRepositoryFactoryImpl.make StorageTypeEnum.S3
            (StorageParamsSchema.s3 p)), st)) ∧
    (∀ d, sr.storage.provider = "local" → sr.storage.dir = some d →
      get_storage_repository sr st =
        (StorageRepositoryFactoryImpl.make StorageTypeEnum.LOCAL
          (StorageParamsSchema.localFs ⟨d⟩), st)) ∧
    (¬ (sr.storage.provider = "s3" ∧ sr.storage.s3 ≠ none) →
     ¬ (sr.storage.provider = "local" ∧ sr.storage.dir ≠ none) →
      get_storage_repository sr st =
        (Except.error ("Storage " ++ sr.storage.provider ++ " not allowed"), st)) := by
  obtain ⟨core, cache, kafka, storage⟩ := sr
  obtain ⟨p, s3, d⟩ := storage
  refine ⟨?_, ?_, ?_⟩
  · rintro b hp rfl
    subst hp
    rfl
  · rintro d0 hp rfl
    subst hp
    rcases s3 with _ | b
    · rfl
    · rfl
  · intro h1 h2
    simp only [get_storage_repository]
    split
    · rename_i heq1 heq2
      exact absurd ⟨by simp_all, by simp_all⟩ h1
    · rename_i heq1 heq2
      exact absurd ⟨by simp_all, by simp_all⟩ h2
    · rfl

/-- Witness for C1: the s3 branch at a concrete configuration. -/
theorem get_storage_repository_cases_witness :
    get_storage_repository (sample_settings_repository sample_storage_s3) empty_state =
      (Except.ok (StorageRepositoryProtocol.s3Storage ⟨"s3.example", "bucket"⟩),
        empty_state) :=
  ((get_storage_repository_cases (sample_settings_repository sample_storage_s3)
      empty_state).1 sample_s3_block rfl rfl).trans (by rfl)

/-- C2 counterexample: a configuration in which both mutually exclusive
sub-blocks are present together with the s3 provider is accepted by
get_storage_repository (the function never checks that the non-matching
sub-block is absent), while the claim requires the storage-not-allowed
error for every such configuration. -/
theorem get_storage_repository_both_blocks_accepted :
    (get_storage_repository (sample_settings_repository sample_storage_both)
        empty_state).1 =
      Except.ok (StorageRepositoryProtocol.s3Storage ⟨"s3.example", "bucket"⟩) := rfl

/-- C2 amended: get_storage_repository accepts a configuration exactly when
the sub-block matching the provider discriminator is present (and, for s3,
its parameters validate); the presence of the other sub-block is not
checked, and in every non-matching case the storage-not-allowed error is
raised. -/
theorem get_storage_repository_acceptance (sr : SettingsRepositoryProtocol) (st : GlobalState) :
    (∃ r, (get_storage_repository sr st).1 = Except.ok r) ↔
      ((sr.storage.provider = "s3" ∧ ∃ b, sr.storage.s3 = some b ∧
          ∃ q, S3StorageParamsSchema.model_validate b.model_dump = Except.ok q) ∨
       (sr.storage.provider = "local" ∧ sr.storage.dir ≠ none)) := by
  obtain ⟨core, cache, kafka, storage⟩ := sr
  obtain ⟨p, s3, d⟩ := storage
  constructor
  · rintro ⟨r, hr⟩
    by_cases hp3 : p = "s3"
    · subst hp3
      rcases s3 with _ | b
      · rcases d with _ | d0 <;> simp [get_storage_repository] at hr
      · cases hv : S3StorageParamsSchema.model_validate b.model_dump with
        | error e =>
          simp only [get_storage_repository] at hr
          rw [hv] at hr
          simp [Except.bind] at hr
        | ok q => exact Or.inl ⟨rfl, b, rfl, q, hv⟩
    · by_cases hpl : p = "local"
      · subst hpl
        rcases d with _ | d0
        · rcases s3 with _ | b <;> simp [get_storage_repository] at hr
        · simp
      · rcases s3 with _ | b <;> rcases d with _ | d0 <;>
          simp [get_storage_repository, hp3, hpl] at hr
  · rintro (⟨hp, b, hs3, q, hq⟩ | ⟨hp, hd⟩)
    · subst hp
      subst hs3
      exact ⟨StorageRepositoryProtocol.s3Storage q,
        by simp [get_storage_repository, hq, Except.bind, StorageRepositoryFactoryImpl.make]⟩
    · subst hp
      rcases d with _ | d0
      · exact absurd rfl hd
      · rcases s3 with _ | b
        · exact ⟨StorageRepositoryProtocol.localStorage ⟨d0⟩, rfl⟩
        · exact ⟨StorageRepositoryProtocol.localStorage ⟨d0⟩, rfl⟩

/-- Witness for C2 amended: the acceptance direction at the concrete
both-sub-blocks configuration. -/
theorem get_storage_repository_acceptance_witness :
    ∃ r, (get_storage_repository (sample_settings_repository sample_storage_both)
        empty_state).1 = Except.ok r :=
  (get_storage_repository_acceptance (sample_settings_repository sample_storage_both)
      empty_state).2
    (Or.inl ⟨rfl, sample_s3_block, rfl, ⟨"s3.example", "bucket"⟩, rfl⟩)

/-- C3: get_cache_repository is lazy on first use — with no published cache
repository it calls CacheManager.init itself and calls RedisManager.init
exactly when a Redis DSN is configured; with a published repository it
returns it without calling CacheManager.init; and when the repository is
still absent after its own init call it fails with the distinct error
`Cache is not initialized` instead of returning a value. -/
theorem get_cache_repository_lazy
    (cache_manager_init :
      CoreCacheSettingsSchema → Option RedisClient → Option CacheRepositoryProtocol)
    (sr : SettingsRepositoryProtocol) (st : GlobalState) :
    (st.cache_repository = none →
      (get_cache_repository cache_manager_init sr st).2.2.2 = true ∧
      ((get_cache_repository cache_manager_init sr st).2.2.1 = true ↔
        sr.core.redis_dsn ≠ none)) ∧
    (∀ r, st.cache_repository = some r →
      (get_cache_repository cache_manager_init sr st).1 = Except.ok r ∧
      (get_cache_repository cache_manager_init sr st).2.2.2 = false) ∧
    (st.cache_repository = none → (∀ x, cache_manager_init sr.cache x = none) →
      (get_cache_repository cache_manager_init sr st).1 =
        Except.error ("Cache is not initialized")) := by
  obtain ⟨red, cachrep⟩ := st
  refine ⟨?_, ?_, ?_⟩
  · rintro rfl
    cases red with
    | none =>
      cases hdsn : sr.core.redis_dsn with
      | none =>
        cases hpub : cache_manager_init sr.cache none <;>
          simp [get_cache_repository, RedisManager.init, hdsn, hpub]
      | some dsn =>
        cases hpub : cache_manager_init sr.cache (some ⟨dsn⟩) <;>
          simp [get_cache_repository, RedisManager.init, hdsn, hpub]
    | some r0 =>
      cases hdsn : sr.core.redis_dsn with
      | none =>
        cases hpub : cache_manager_init sr.cache (some r0) <;>
          simp [get_cache_repository, RedisManager.init, hdsn, hpub]
      | some dsn =>
        cases hpub : cache_manager_init sr.cache (some r0) <;>
          simp [get_cache_repository, RedisManager.init, hdsn, hpub]
  · rintro r rfl
    cases hdsn : sr.core.redis_dsn <;>
      cases red <;>
        simp [get_cache_repository, RedisManager.init, hdsn]
  · rintro rfl habs
    cases hdsn : sr.core.redis_dsn <;>
      cases red <;>
        simp [get_cache_repository, RedisManager.init, hdsn, habs]

/-- Witness for C3: the failure branch under a never-publishing init, and the
already-published branch returning without re-initialization. -/
theorem get_cache_repository_lazy_witness :
    (get_cache_repository cache_init_none
        (sample_settings_repository sample_storage_s3) empty_state).1 =
      Except.error ("Cache is not initialized") ∧
    (get_cache_repository CacheManager.init
        (sample_settings_repository sample_storage_s3) cache_published_state).1 =
      Except.ok sample_cache_repo ∧
    (get_cache_repository CacheManager.init
        (sample_settings_repository sample_storage_s3) cache_published_state).2.2.2 =
      false :=
  ⟨(get_cache_repository_lazy cache_init_none
      (sample_settings_repository sample_storage_s3) empty_state).2.2 rfl (fun _ => rfl),
   ((get_cache_repository_lazy CacheManager.init
      (sample_settings_repository sample_storage_s3) cache_published_state).2.1
        sample_cache_repo rfl).1,
   ((get_cache_repository_lazy CacheManager.init
      (sample_settings_repository sample_storage_s3) cache_published_state).2.1
        sample_cache_repo rfl).2⟩

/-- C4: whenever the Redis DSN is configured, get_lock_service succeeds (so
neither of its two assertions fails) and returns a lock service built on
exactly the shared Redis handle published by RedisManager — in particular,
when a handle is already published it is reused rather than a new
connection being opened. -/
theorem get_lock_service_shared_redis (settings : CoreSettingsSchema) (st : GlobalState)
    (dsn : String) (h : settings.redis_dsn = some dsn) :
    ∃ r, (get_lock_service settings st).2.redis = some r ∧
      (get_lock_service settings st).1 = Except.ok ⟨r⟩ ∧
      (∀ r0, st.redis = some r0 → r = r0) := by
  obtain ⟨red, cachrep⟩ := st
  cases red with
  | none =>
    refine ⟨⟨dsn⟩, ?_, ?_, ?_⟩ <;> simp [get_lock_service, RedisManager.init, h]
  | some r0 =>
    refine ⟨r0, ?_, ?_, ?_⟩ <;> simp [get_lock_service, RedisManager.init, h]

/-- Witness for C4 at a concrete settings record with a DSN configured. -/
theorem get_lock_service_shared_redis_witness :
    ∃ r, (get_lock_service sample_core_settings empty_state).2.redis = some r ∧
      (get_lock_service sample_core_settings empty_state).1 = Except.ok ⟨r⟩ ∧
      (∀ r0, empty_state.redis = some r0 → r = r0) :=
  get_lock_service_shared_redis sample_core_settings empty_state
    ("redis://localhost") rfl

/-- C5 counterexample: the algorithm requested from the cryptography factory
is not selected from configuration — no two settings records make
get_cryptography_service request different algorithms (it always requests
AES_GCM, as the companion theorem states). -/
theorem get_cryptography_service_algorithm_constant :
    ¬ ∃ s1 s2 : CoreSettingsSchema,
      (get_cryptography_service (get_cryptography_service_factory s1)).algorithm ≠
        (get_cryptography_service (get_cryptography_service_factory s2)).algorithm := by
  rintro ⟨s1, s2, hne⟩
  exact hne rfl

/-- C5 amended: the factory is keyed by the secret key supplied once at
factory-creation time, but the algorithm is not selected from
configuration — get_cryptography_service requests the fixed literal
AES_GCM for every settings record. -/
theorem get_cryptography_service_fixed (settings : CoreSettingsSchema) :
    (get_cryptography_service (get_cryptography_service_factory settings)).algorithm =
      CryptographicAlgorithmEnum.AES_GCM ∧
    (get_cryptography_service (get_cryptography_service_factory settings)).secret_key =
      settings.secret_key :=
  ⟨rfl, rfl⟩

/-- C6: every shared-infrastructure registration of CoreProvider carries the
APP scope tag, while the database session, session manager, seed service
and transaction service registrations carry no explicit scope and so use
the class default REQUEST scope. -/
theorem coreProvider_scope_tags :
    CoreProvider.scope_of Capability.settingsRepositoryFactory = some Scope.APP ∧
    CoreProvider.scope_of Capability.storageRepositoryFactory = some Scope.APP ∧
    CoreProvider.scope_of Capability.settingsRepository = some Scope.APP ∧
    CoreProvider.scope_of Capability.settings = some Scope.APP ∧
    CoreProvider.scope_of Capability.cacheRepository = some Scope.APP ∧
    CoreProvider.scope_of Capability.storageRepository = some Scope.APP ∧
    CoreProvider.scope_of Capability.cryptographyServiceFactory = some Scope.APP ∧
    CoreProvider.scope_of Capability.cryptographyService = some Scope.APP ∧
    CoreProvider.scope_of Capability.lockService = some Scope.APP ∧
    CoreProvider.default_scope = Scope.REQUEST ∧
    CoreProvider.scope_of Capability.asyncSession = some Scope.REQUEST ∧
    CoreProvider.scope_of Capability.sessionManager = some Scope.REQUEST ∧
    CoreProvider.scope_of Capability.seedService = some Scope.REQUEST ∧
    CoreProvider.scope_of Capability.transactionService = some Scope.REQUEST := by
  decide

/-- C7 counterexample: the broker capability is provided by no registration
of CoreProvider — get_broker_repository carries no provide decorator in
depends.py, so the broker is not registered in the provider graph. -/
theorem broker_capability_not_registered :
    CoreProvider.scope_of Capability.brokerRepository = none := by decide

/-- C7 amended: the body of get_broker_repository yields the broker client
built by the static factory function from the Kafka settings obtained via
the settings repository, but the method is not registered in the provider
graph (no registration provides the broker capability). -/
theorem get_broker_repository_make_static (sr : SettingsRepositoryProtocol) :
    get_broker_repository sr = BrokerFactory.make_static sr.kafka ∧
    (∀ e ∈ CoreProvider.registrations, e.1 ≠ Capability.brokerRepository) :=
  ⟨rfl, by decide⟩

/-- Witness for C7 amended at a concrete settings repository. -/
theorem get_broker_repository_make_static_witness :
    get_broker_repository (sample_settings_repository sample_storage_s3) =
      BrokerFactory.make_static
        (sample_settings_repository sample_storage_s3).kafka :=
  (get_broker_repository_make_static (sample_settings_repository sample_storage_s3)).1

/-- C8: get_storage_repository leaves the shared singleton state (the
RedisManager and CacheManager handles) unchanged on every input. -/
theorem get_storage_repository_frame (sr : SettingsRepositoryProtocol) (st : GlobalState) :
    (get_storage_repository sr st).2 = st := rfl

/-- C9: get_pagination returns the given page when it is truthy and 1
otherwise, and the given page_size when it is truthy and 10 otherwise; in
particular page=0 and page_size=0 give the defaults, the same as passing
no value at all. -/
theorem get_pagination_truthy_defaults (page page_size : Option Int) :
    (∀ n, page = some n → n ≠ 0 → (get_pagination page page_size).page = n) ∧
    ((page = none ∨ page = some 0) → (get_pagination page page_size).page = 1) ∧
    (∀ n, page_size = some n → n ≠ 0 → (get_pagination page page_size).page_size = n) ∧
    ((page_size = none ∨ page_size = some 0) →
      (get_pagination page page_size).page_size = 10) ∧
    get_pagination (some 0) (some 0) = get_pagination none none := by
  refine ⟨?_, ?_, ?_, ?_, by decide⟩
  · rintro n rfl hn
    simp [get_pagination, int_or_default, hn]
  · rintro (rfl | rfl) <;> rfl
  · rintro n rfl hn
    simp [get_pagination, int_or_default, hn]
  · rintro (rfl | rfl) <;> rfl

/-- Witness for C9: a truthy page with a zero page_size. -/
theorem get_pagination_truthy_defaults_witness :
    (get_pagination (some 5) (some 0)).page = 5 ∧
    (get_pagination (some 5) (some 0)).page_size = 10 :=
  ⟨(get_pagination_truthy_defaults (some 5) (some 0)).1 5 rfl (by decide),
   (get_pagination_truthy_defaults (some 5) (some 0)).2.2.2.1 (Or.inr rfl)⟩

/-- C10 counterexample: on the non-empty sorting string consisting of one
comma the code raises IndexError while evaluating `s[0]` on the empty
field (modelled as the none result), whereas the claimed behaviour is to
split and convert, returning the two empty field names. -/
theorem get_sorting_empty_field_crash :
    get_sorting (some (",")) = none ∧
    get_sorting_claimed (some (",")) = ["", ""] :=
  ⟨rfl, rfl⟩

/-- C10 amended: get_sorting returns the empty sequence exactly when the
sorting string is absent or empty; a non-empty string is split on commas
and, provided every field is non-empty, each field is converted to
snake_case with a leading hyphen preserved; a non-empty string containing
an empty field raises IndexError instead. -/
theorem get_sorting_spec (s : String) :
    get_sorting none = some [] ∧
    get_sorting (some ("")) = some [] ∧
    (s.data ≠ [] →
      ((∀ f ∈ split_commas s.data, f ≠ []) →
        get_sorting (some s) = some ((split_commas s.data).map sorting_field_claimed)) ∧
      ((∃ f ∈ split_commas s.data, f = []) → get_sorting (some s) = none) ∧
      get_sorting (some s) ≠ some []) := by
  refine ⟨rfl, rfl, ?_⟩
  intro hne
  refine ⟨?_, ?_, ?_⟩
  · intro hall
    simp [get_sorting, hne, sorting_fields_all_nonempty _ hall]
  · intro hsome
    simp [get_sorting, hne, sorting_fields_has_empty _ hsome]
  · cases hsc : split_commas s.data with
    | nil => exact absurd hsc (split_commas_ne_nil _)
    | cons g gs =>
      simp only [get_sorting, hne, if_neg hne, hsc]
      exact sorting_fields_cons_ne_some_nil g gs

/-- Witness for C10 amended: a two-field sorting string with a leading
descending marker on the first field. -/
theorem get_sorting_spec_witness :
    get_sorting (some ("-fooBar,baz")) = some ["-foo_bar", "baz"] :=
  (((get_sorting_spec ("-fooBar,baz")).2.2 (by decide)).1 (by decide)).trans (by decide)

end FastClean
